import Mathlib

/-
Verification of the hotel booking availability service (src/main.py,
src/schemas.py): the interval-overlap booking engine and the
availability/booking decision procedures built on it.

Shallow embedding choices:
- Calendar dates are embedded as integers (day numbers); `datetime.date`
  comparison and subtraction correspond to integer comparison and
  subtraction (`(co - ci).days = co - ci`).
- The Mongo `room` and `booking` collections are embedded as lists of
  records; `find` with an equality filter is `List.filter`, `find_one`
  on `_id` is `List.find?`, `create_document` appends to the list.
- HTTPException raises are embedded as `Except.error`; since the code
  raises before any write, each endpoint returns the (possibly updated)
  database together with its result.
-/

namespace HotelBooking

/-- A stored `room` document (schemas.Room plus its `_id`, serialized as
a string).  `price_per_night` and `capacity` are required fields of the
schema. -/
structure StoredRoom where
  roomId : String
  hotel_id : String
  name : String
  price_per_night : Int
  capacity : Int
  deriving Repr, DecidableEq

/-- A stored `booking` document: the fields of schemas.Booking as
persisted by `create_booking` (dates in ISO form, embedded as day
numbers). -/
structure BookingDoc where
  hotel_id : String
  room_id : String
  guest_name : String
  guest_email : String
  check_in : Int
  check_out : Int
  guests : Int
  total_price : Int
  status : String
  deriving Repr, DecidableEq

/-- The request payload of `POST /book` (the pydantic `Booking` model):
identical field set, `total_price` and `status` supplied by the client. -/
structure BookingPayload where
  hotel_id : String
  room_id : String
  guest_name : String
  guest_email : String
  check_in : Int
  check_out : Int
  guests : Int
  total_price : Int
  status : String
  deriving Repr, DecidableEq

/-- The database state visible to the two endpoints: the `room` and
`booking` collections. -/
structure DB where
  rooms : List StoredRoom
  bookings : List BookingDoc
  deriving Repr, DecidableEq

/-- Errors raised by `create_booking`: HTTP 404 "Room not found" and
HTTP 400 "Selected dates overlap with an existing booking". -/
inductive BookErr where
  | roomNotFound
  | conflict
  deriving Repr, DecidableEq

/-- The JSON body returned by a successful `POST /book`. -/
structure BookResponse where
  booking_id : String
  total_price : Int
  status : String
  deriving Repr, DecidableEq

/-- The overlap test on half-open ranges, exactly as written at
main.py:176 and main.py:207: candidate `[ci, co)` against existing
`[bci, bco)` overlaps when `not (co <= b_ci or ci >= b_co)`. -/
def overlapsCheck (ci co bci bco : Int) : Bool :=
  !(decide (co ≤ bci) || decide (ci ≥ bco))

/-- `db["booking"].find({"room_id": rid})` (main.py:171, main.py:196). -/
def bookingsForRoom (bs : List BookingDoc) (rid : String) : List BookingDoc :=
  bs.filter (fun b => b.room_id == rid)

/-- The conflict scan over a list of existing bookings: both endpoints
loop over the fetched bookings and stop at the first overlap
(main.py:173-178, main.py:204-208). -/
def hasOverlap (ci co : Int) (bs : List BookingDoc) : Bool :=
  bs.any (fun b => overlapsCheck ci co b.check_in b.check_out)

/-- `db["room"].find_one({"_id": ObjectId(rid)})` (main.py:191). -/
def findRoom (rooms : List StoredRoom) (rid : String) : Option StoredRoom :=
  rooms.find? (fun r => r.roomId == rid)

/-- `db["room"].find({"hotel_id": hid})` (main.py:167). -/
def roomsForHotel (rooms : List StoredRoom) (hid : String) : List StoredRoom :=
  rooms.filter (fun r => r.hotel_id == hid)

/-- `POST /availability/{hotel_id}` (main.py:151-182): reject an empty
or inverted range, then keep each room of the hotel whose stored
bookings have no overlap with the candidate range and whose capacity
admits the guest count. -/
def check_availability (db : DB) (hid : String) (ci co guests : Int) :
    Except String (List StoredRoom) :=
  if co ≤ ci then
    Except.error "Check-out must be after check-in"
  else
    Except.ok ((roomsForHotel db.rooms hid).filter
      (fun room =>
        !(hasOverlap ci co (bookingsForRoom db.bookings room.roomId)) &&
          decide (guests ≤ room.capacity)))

/-- The document persisted by `create_booking`:
`payload.model_dump()` with `check_in`/`check_out` normalized and
`total_price` overwritten by the server-computed total
(main.py:214-217).  The `status` field is taken from the payload. -/
def persistedDoc (p : BookingPayload) (total : Int) : BookingDoc :=
  { hotel_id := p.hotel_id
    room_id := p.room_id
    guest_name := p.guest_name
    guest_email := p.guest_email
    check_in := p.check_in
    check_out := p.check_out
    guests := p.guests
    total_price := total
    status := p.status }

/-- `POST /book` (main.py:185-220): resolve the room (404 if absent),
scan the room's stored bookings for an overlap (400 conflict if any),
compute `total = nights * price_per_night`, persist the document and
return the assigned id, the total and status "confirmed".  `newId` is
the identifier assigned by the storage layer. -/
def create_booking (db : DB) (p : BookingPayload) (newId : String) :
    DB × Except BookErr BookResponse :=
  match findRoom db.rooms p.room_id with
  | none => (db, Except.error BookErr.roomNotFound)
  | some room =>
    if hasOverlap p.check_in p.check_out (bookingsForRoom db.bookings p.room_id) then
      (db, Except.error BookErr.conflict)
    else
      let nights := p.check_out - p.check_in
      let total := nights * room.price_per_night
      ({ db with bookings := db.bookings ++ [persistedDoc p total] },
       Except.ok { booking_id := newId, total_price := total, status := "confirmed" })

/-! ### Concrete fixtures (the seeded "Deluxe Ocean View" room and some
bookings, with dates written as day numbers of January/February 2024) -/

/-- The seeded capacity-2 room at 320 per night (main.py:96-103). -/
def roomR1 : StoredRoom :=
  { roomId := "r1", hotel_id := "h1", name := "Deluxe Ocean View",
    price_per_night := 320, capacity := 2 }

/-- An existing confirmed booking of room r1 for 2024-01-10 → 2024-01-15. -/
def bookingJan10to15 : BookingDoc :=
  { hotel_id := "h1", room_id := "r1", guest_name := "Alice",
    guest_email := "alice@example.com", check_in := 10, check_out := 15,
    guests := 2, total_price := 1600, status := "confirmed" }

/-- Database with room r1 and the 2024-01-10 → 2024-01-15 booking. -/
def dbJan : DB := { rooms := [roomR1], bookings := [bookingJan10to15] }

/-- Database with room r1 and no bookings. -/
def dbEmpty : DB := { rooms := [roomR1], bookings := [] }

/-- A booking payload for room r1 with the given range; the client
supplies `total_price = 1` and the default status "confirmed". -/
def mkPayload (ci co : Int) : BookingPayload :=
  { hotel_id := "h1", room_id := "r1", guest_name := "Bob",
    guest_email := "bob@example.com", check_in := ci, check_out := co,
    guests := 2, total_price := 1, status := "confirmed" }

/-- The payload `mkPayload 10 12` with the client-supplied status
"cancelled" instead of the default. -/
def payloadCancelled : BookingPayload := { mkPayload 10 12 with status := "cancelled" }

/-- The stored booking `bookingJan10to15` with status "cancelled". -/
def bookingCancelled : BookingDoc := { bookingJan10to15 with status := "cancelled" }

/-- Database with room r1 and one cancelled overlapping booking. -/
def dbCancelled : DB := { rooms := [roomR1], bookings := [bookingCancelled] }

/-- The database after successfully booking `mkPayload 10 12` on `dbEmpty`:
2 nights at 320 gives a stored total of 640. -/
def db640 : DB := { rooms := [roomR1], bookings := [persistedDoc (mkPayload 10 12) 640] }

/-- The response to that successful booking. -/
def resp640 : BookResponse := { booking_id := "b1", total_price := 640, status := "confirmed" }

/-! ### Helper lemmas -/

/-- Characterization of a successful `create_booking` run: the room
resolves, no stored booking of that room overlaps, exactly the one
document is appended, and the response carries the assigned id, the
derived total and status "confirmed". -/
lemma create_booking_ok_iff (db : DB) (p : BookingPayload) (newId : String)
    (db' : DB) (resp : BookResponse) :
    create_booking db p newId = (db', Except.ok resp) ↔
      ∃ room, findRoom db.rooms p.room_id = some room ∧
        hasOverlap p.check_in p.check_out (bookingsForRoom db.bookings p.room_id) = false ∧
        db' = { db with bookings :=
          db.bookings ++ [persistedDoc p ((p.check_out - p.check_in) * room.price_per_night)] } ∧
        resp = { booking_id := newId,
                 total_price := (p.check_out - p.check_in) * room.price_per_night,
                 status := "confirmed" } := by
  unfold create_booking
  cases hfind : findRoom db.rooms p.room_id with
  | none => simp [hfind]
  | some room =>
    cases hov : hasOverlap p.check_in p.check_out (bookingsForRoom db.bookings p.room_id) with
    | true => simp [hov]
    | false =>
      simp only [hov, hfind, if_false, Bool.false_eq_true, Option.some.injEq, Prod.mk.injEq,
        Except.ok.injEq]
      constructor
      · rintro ⟨hdb, hresp⟩
        refine ⟨room, rfl, ?_, hdb.symm, hresp.symm⟩
        trivial
      · rintro ⟨room2, hr2, -, hdb, hresp⟩
        cases hr2
        exact ⟨hdb.symm, hresp.symm⟩

/-- Characterization of the rooms returned by a successful availability
query: a room is in the result iff it is a room of the hotel, none of
its stored bookings overlaps the range, and the guest count fits. -/
lemma mem_check_availability (db : DB) (hid : String) (ci co guests : Int)
    (out : List StoredRoom) (h : check_availability db hid ci co guests = Except.ok out)
    (room : StoredRoom) :
    room ∈ out ↔ (room ∈ db.rooms ∧ room.hotel_id = hid ∧
      hasOverlap ci co (bookingsForRoom db.bookings room.roomId) = false ∧
      guests ≤ room.capacity) := by
  unfold check_availability at h
  by_cases hrange : co ≤ ci
  · simp [hrange] at h
  · simp only [hrange, if_false] at h
    cases h
    simp only [roomsForHotel, List.mem_filter, Bool.and_eq_true, Bool.not_eq_true',
      decide_eq_true_eq, beq_iff_eq]
    tauto

/-- The conflict scan reports a conflict iff some stored booking of the
room overlaps the candidate range. -/
lemma hasOverlap_bookingsForRoom_iff (bs : List BookingDoc) (rid : String) (ci co : Int) :
    hasOverlap ci co (bookingsForRoom bs rid) = true ↔
      ∃ b ∈ bs, b.room_id = rid ∧ overlapsCheck ci co b.check_in b.check_out = true := by
  simp [hasOverlap, bookingsForRoom, List.any_eq_true, List.mem_filter, and_assoc]

/-! ### Claims -/

/-- C1: for every candidate half-open range [a,b) and existing half-open
range [c,d), the overlap check used by both endpoints returns true iff
NOT (b <= c OR a >= d), equivalently a < d AND c < b. -/
theorem C1_overlap_iff_halfopen : ∀ a b c d : Int,
    (overlapsCheck a b c d = true ↔ ¬(b ≤ c ∨ a ≥ d)) ∧
    (overlapsCheck a b c d = true ↔ (a < d ∧ c < b)) := by
  intro a b c d
  constructor <;> simp [overlapsCheck] <;> omega

/-- Witness for C1 at the concrete ranges [1,3) and [2,4). -/
theorem C1_overlap_iff_halfopen_witness :
    (overlapsCheck 1 3 2 4 = true ↔ ¬((3 : Int) ≤ 2 ∨ (1 : Int) ≥ 4)) ∧
    (overlapsCheck 1 3 2 4 = true ↔ ((1 : Int) < 4 ∧ (2 : Int) < 3)) :=
  C1_overlap_iff_halfopen 1 3 2 4

/-- C2 (code evaluation at the failing input): a zero-night request
(check_in = check_out = day 10) for an existing room with no stored
bookings is NOT rejected: `create_booking` succeeds, returns
total_price 0 and status "confirmed", and persists a document. -/
theorem C2_zero_night_accepted :
    (create_booking dbEmpty (mkPayload 10 10) "b1").2 =
      Except.ok { booking_id := "b1", total_price := 0, status := "confirmed" } ∧
    (create_booking dbEmpty (mkPayload 10 10) "b1").1.bookings =
      [persistedDoc (mkPayload 10 10) 0] :=
  ⟨rfl, rfl⟩

/-- C6: the overlap check is symmetric in its two ranges. -/
theorem C6_overlaps_symm : ∀ a b c d : Int,
    overlapsCheck a b c d = overlapsCheck c d a b := by
  intro a b c d
  rw [Bool.eq_iff_iff]
  simp [overlapsCheck]
  omega

/-- Witness for C6 at the concrete ranges [10,15) and [12,20). -/
theorem C6_overlaps_symm_witness :
    overlapsCheck 10 15 12 20 = overlapsCheck 12 20 10 15 :=
  C6_overlaps_symm 10 15 12 20

/-- C7: back-to-back ranges [d1,d2) and [d2,d3) never overlap for
d1 < d2 < d3; concretely, with an existing booking 2024-01-10 → 2024-01-15
of room r1, the adjacent request 2024-01-15 → 2024-01-18 succeeds (3 nights
at 320 = 960) while the request 2024-01-12 → 2024-01-20 is rejected with
the conflict error, leaving the store unchanged. -/
theorem C7_back_to_back :
    (∀ d1 d2 d3 : Int, d1 < d2 → d2 < d3 → overlapsCheck d1 d2 d2 d3 = false) ∧
    (create_booking dbJan (mkPayload 15 18) "b2").2 =
      Except.ok { booking_id := "b2", total_price := 960, status := "confirmed" } ∧
    create_booking dbJan (mkPayload 12 20) "b2" =
      (dbJan, Except.error BookErr.conflict) := by
  refine ⟨?_, rfl, rfl⟩
  intro d1 d2 d3 h12 h23
  simp [overlapsCheck]

/-- Witness for C7: the adjacent ranges [10,15) and [15,18) do not
overlap. -/
theorem C7_back_to_back_witness : overlapsCheck 10 15 15 18 = false :=
  C7_back_to_back.1 10 15 18 (by decide) (by decide)

/-- C3: every successful booking computes total_price as nights times
the room's price_per_night; concretely, 320 per night from 2024-02-01
to 2024-02-04 gives 960. -/
theorem C3_total_price_derived :
    (∀ db p newId db' resp, create_booking db p newId = (db', Except.ok resp) →
      ∃ room, findRoom db.rooms p.room_id = some room ∧
        resp.total_price = (p.check_out - p.check_in) * room.price_per_night) ∧
    (create_booking dbEmpty (mkPayload 1 4) "b1").2 =
      Except.ok { booking_id := "b1", total_price := 960, status := "confirmed" } := by
  constructor
  · intro db p newId db' resp h
    obtain ⟨room, hfind, -, -, hresp⟩ := (create_booking_ok_iff db p newId db' resp).1 h
    exact ⟨room, hfind, by rw [hresp]⟩
  · rfl

/-- Witness for C3: the successful booking of [10,12) on the empty store
satisfies the derived-price equation. -/
theorem C3_total_price_derived_witness :
    ∃ room, findRoom dbEmpty.rooms (mkPayload 10 12).room_id = some room ∧
      resp640.total_price =
        ((mkPayload 10 12).check_out - (mkPayload 10 12).check_in) * room.price_per_night :=
  C3_total_price_derived.1 dbEmpty (mkPayload 10 12) "b1" db640 resp640 rfl

/-- C4: if the room resolves and some stored booking of the same room
overlaps the candidate range, `create_booking` fails with the conflict
error and leaves the store unchanged; if no stored booking of the room
overlaps, no conflict error is raised. -/
theorem C4_conflict_error_iff_overlap :
    (∀ db p newId, (∃ room, findRoom db.rooms p.room_id = some room) →
      (∃ b ∈ db.bookings, b.room_id = p.room_id ∧
        overlapsCheck p.check_in p.check_out b.check_in b.check_out = true) →
      create_booking db p newId = (db, Except.error BookErr.conflict)) ∧
    (∀ db p newId,
      (∀ b ∈ db.bookings, b.room_id = p.room_id →
        overlapsCheck p.check_in p.check_out b.check_in b.check_out = false) →
      (create_booking db p newId).2 ≠ Except.error BookErr.conflict) := by
  constructor
  · rintro db p newId ⟨room, hroom⟩ hex
    have hov : hasOverlap p.check_in p.check_out (bookingsForRoom db.bookings p.room_id) = true :=
      (hasOverlap_bookingsForRoom_iff _ _ _ _).2 hex
    simp [create_booking, hroom, hov]
  · intro db p newId hnone
    have hov : hasOverlap p.check_in p.check_out (bookingsForRoom db.bookings p.room_id) = false := by
      cases h : hasOverlap p.check_in p.check_out (bookingsForRoom db.bookings p.room_id) with
      | false => rfl
      | true =>
        obtain ⟨b, hb, hbid, hbo⟩ := (hasOverlap_bookingsForRoom_iff _ _ _ _).1 h
        rw [hnone b hb hbid] at hbo
        cases hbo
    cases hfind : findRoom db.rooms p.room_id with
    | none => simp [create_booking, hfind]
    | some room => simp [create_booking, hfind, hov]

/-- Witness for C4: the overlapping request [12,20) against the stored
booking [10,15) is rejected with the conflict error, store unchanged. -/
theorem C4_conflict_error_iff_overlap_witness :
    create_booking dbJan (mkPayload 12 20) "b2" = (dbJan, Except.error BookErr.conflict) :=
  C4_conflict_error_iff_overlap.1 dbJan (mkPayload 12 20) "b2" ⟨roomR1, rfl⟩
    ⟨bookingJan10to15, by decide, rfl, rfl⟩

/-- C5: a room of the hotel is in the available set iff the guest count
fits its capacity and none of its stored bookings overlaps the range; in
particular a room whose capacity is below the guest count is never
returned. -/
theorem C5_capacity_and_overlap_filter :
    ∀ db hid ci co guests out,
      check_availability db hid ci co guests = Except.ok out →
      ∀ room, (room.capacity < guests → room ∉ out) ∧
        (room ∈ out ↔ (room ∈ db.rooms ∧ room.hotel_id = hid ∧
          hasOverlap ci co (bookingsForRoom db.bookings room.roomId) = false ∧
          guests ≤ room.capacity)) := by
  intro db hid ci co guests out h room
  have hmem := mem_check_availability db hid ci co guests out h room
  refine ⟨?_, hmem⟩
  intro hcap hout
  exact absurd ((hmem.1 hout).2.2.2) (by omega)

/-- Witness for C5: with 3 guests against the capacity-2 room r1, the
availability query over [10,12) returns the empty set and r1 is
excluded. -/
theorem C5_capacity_and_overlap_filter_witness :
    (roomR1.capacity < 3 → roomR1 ∉ ([] : List StoredRoom)) ∧
    (roomR1 ∈ ([] : List StoredRoom) ↔ (roomR1 ∈ dbEmpty.rooms ∧ roomR1.hotel_id = "h1" ∧
      hasOverlap 10 12 (bookingsForRoom dbEmpty.bookings roomR1.roomId) = false ∧
      3 ≤ roomR1.capacity)) :=
  C5_capacity_and_overlap_filter dbEmpty "h1" 10 12 3 [] rfl roomR1

/-- C8 counterexample: a successful booking whose payload carries
status "cancelled" is persisted with status "cancelled", not
"confirmed" — the stored status is NOT independent of the request
payload (even though the response says "confirmed"). -/
theorem C8_persisted_status_counterexample :
    (create_booking dbEmpty payloadCancelled "b1").2 =
      Except.ok { booking_id := "b1", total_price := 640, status := "confirmed" } ∧
    (create_booking dbEmpty payloadCancelled "b1").1.bookings.map (fun b => b.status) =
      ["cancelled"] :=
  ⟨rfl, rfl⟩

/-- C8 (amended): for every successful booking, the response carries the
assigned identifier, the derived total_price and status "confirmed",
while the persisted document's status equals the status supplied in the
request payload (whose schema default is "confirmed"). -/
theorem C8_response_confirmed_persisted_payload_status :
    ∀ db p newId db' resp, create_booking db p newId = (db', Except.ok resp) →
      resp.booking_id = newId ∧ resp.status = "confirmed" ∧
      ∃ room, findRoom db.rooms p.room_id = some room ∧
        resp.total_price = (p.check_out - p.check_in) * room.price_per_night ∧
        db'.bookings = db.bookings ++
          [persistedDoc p ((p.check_out - p.check_in) * room.price_per_night)] ∧
        (persistedDoc p ((p.check_out - p.check_in) * room.price_per_night)).status =
          p.status := by
  intro db p newId db' resp h
  obtain ⟨room, hfind, -, hdb, hresp⟩ := (create_booking_ok_iff db p newId db' resp).1 h
  subst hresp
  exact ⟨rfl, rfl, room, hfind, rfl, by rw [hdb], rfl⟩

/-- Witness for the amended C8 at the booking of [10,12) on the empty
store. -/
theorem C8_response_confirmed_persisted_payload_status_witness :
    resp640.booking_id = "b1" ∧ resp640.status = "confirmed" ∧
    ∃ room, findRoom dbEmpty.rooms (mkPayload 10 12).room_id = some room ∧
      resp640.total_price =
        ((mkPayload 10 12).check_out - (mkPayload 10 12).check_in) * room.price_per_night ∧
      db640.bookings = dbEmpty.bookings ++
        [persistedDoc (mkPayload 10 12)
          (((mkPayload 10 12).check_out - (mkPayload 10 12).check_in) * room.price_per_night)] ∧
      (persistedDoc (mkPayload 10 12)
          (((mkPayload 10 12).check_out - (mkPayload 10 12).check_in) *
            room.price_per_night)).status = (mkPayload 10 12).status :=
  C8_response_confirmed_persisted_payload_status dbEmpty (mkPayload 10 12) "b1" db640 resp640 rfl

/-- C9: the client-supplied total_price has no influence on the outcome
(two payloads differing only in total_price produce identical results),
and the persisted document's total_price is the server-derived nights
times price_per_night. -/
theorem C9_total_price_overwritten :
    (∀ (db : DB) (p : BookingPayload) (newId : String) (t1 t2 : Int),
      create_booking db { p with total_price := t1 } newId =
        create_booking db { p with total_price := t2 } newId) ∧
    (∀ db p newId db' resp, create_booking db p newId = (db', Except.ok resp) →
      ∃ room, findRoom db.rooms p.room_id = some room ∧
        db'.bookings = db.bookings ++
          [persistedDoc p ((p.check_out - p.check_in) * room.price_per_night)] ∧
        (persistedDoc p ((p.check_out - p.check_in) * room.price_per_night)).total_price =
          (p.check_out - p.check_in) * room.price_per_night) := by
  constructor
  · intro db p newId t1 t2
    rfl
  · intro db p newId db' resp h
    obtain ⟨room, hfind, -, hdb, -⟩ := (create_booking_ok_iff db p newId db' resp).1 h
    exact ⟨room, hfind, by rw [hdb], rfl⟩

/-- Witness for C9 at the booking of [10,12) on the empty store. -/
theorem C9_total_price_overwritten_witness :
    ∃ room, findRoom dbEmpty.rooms (mkPayload 10 12).room_id = some room ∧
      db640.bookings = dbEmpty.bookings ++
        [persistedDoc (mkPayload 10 12)
          (((mkPayload 10 12).check_out - (mkPayload 10 12).check_in) * room.price_per_night)] ∧
      (persistedDoc (mkPayload 10 12)
          (((mkPayload 10 12).check_out - (mkPayload 10 12).check_in) *
            room.price_per_night)).total_price =
        ((mkPayload 10 12).check_out - (mkPayload 10 12).check_in) * room.price_per_night :=
  C9_total_price_overwritten.2 dbEmpty (mkPayload 10 12) "b1" db640 resp640 rfl

/-- C10: the conflict scan ignores the status field: a stored booking
with status "cancelled" whose range overlaps still excludes the room
from the availability result and still makes `create_booking` fail with
the conflict error. -/
theorem C10_cancelled_bookings_still_block :
    (∀ db hid ci co guests out b room,
      check_availability db hid ci co guests = Except.ok out →
      b ∈ db.bookings → b.room_id = room.roomId → b.status = "cancelled" →
      overlapsCheck ci co b.check_in b.check_out = true →
      room ∉ out) ∧
    (∀ db p newId b room,
      findRoom db.rooms p.room_id = some room →
      b ∈ db.bookings → b.room_id = p.room_id → b.status = "cancelled" →
      overlapsCheck p.check_in p.check_out b.check_in b.check_out = true →
      create_booking db p newId = (db, Except.error BookErr.conflict)) := by
  constructor
  · intro db hid ci co guests out b room hok hb hbid hst hov hmem
    have hchar := (mem_check_availability db hid ci co guests out hok room).1 hmem
    have hovT : hasOverlap ci co (bookingsForRoom db.bookings room.roomId) = true :=
      (hasOverlap_bookingsForRoom_iff _ _ _ _).2 ⟨b, hb, hbid, hov⟩
    rw [hchar.2.2.1] at hovT
    cases hovT
  · intro db p newId b room hfind hb hbid hst hov
    have hovT : hasOverlap p.check_in p.check_out (bookingsForRoom db.bookings p.room_id) = true :=
      (hasOverlap_bookingsForRoom_iff _ _ _ _).2 ⟨b, hb, hbid, hov⟩
    simp [create_booking, hfind, hovT]

/-- Witness for C10: the cancelled stored booking [10,15) still makes
the overlapping request [12,20) fail with the conflict error. -/
theorem C10_cancelled_bookings_still_block_witness :
    create_booking dbCancelled (mkPayload 12 20) "b2" =
      (dbCancelled, Except.error BookErr.conflict) :=
  C10_cancelled_bookings_still_block.2 dbCancelled (mkPayload 12 20) "b2"
    bookingCancelled roomR1 rfl (by decide) rfl rfl rfl

end HotelBooking
